import Mathlib

/-!
Shallow embedding of the postcard-plotter rendering and plotting pipeline:
the text-layout engine (`font_parser.py`, class `FontParser`) and the plot
executor (`axidraw_controller.py`, class `AxiDrawController`).

Conventions of the embedding:
* Python floats are modelled as exact rationals (`ℚ`); all arithmetic the
  code performs on coordinates is addition, multiplication, comparison and
  division by constants, so the idealisation is faithful except for
  floating-point rounding, which none of the claims is about.
* The Euclidean path length computed in simulated plotting uses a square
  root; it is modelled over `ℝ` (see `pathDist`).
* `random.random()` and `random.choice` are modelled by an explicit oracle:
  each call of `generate_mistake` receives a `MistakeRand` triple holding
  the uniform draw in `[0,1)` and the two choice indices (a `random.choice`
  over a non-empty list `l` is `l.getD (i % l.length) _`, so every element
  is reachable and the function is total).
* Characters are Lean `Char`s; `str.islower` / `str.isalpha` are modelled
  on the ASCII fragment, which is all the font and the claims cover.
-/

namespace PostcardPlotter

/-- A 2-D point with rational coordinates (Python dict with keys x, y). -/
structure Point where
  x : ℚ
  y : ℚ
deriving DecidableEq, Repr

/-- A path: ordered list of points (font_parser.py and axidraw_controller.py). -/
abbrev PlotPath := List Point

/-- Oracle for one `generate_mistake` call: `r` is the `random.random()` draw
(always in `[0,1)`), `posIdx` and `repIdx` are the `random.choice` indices for
the vowel position and the replacement vowel. -/
structure MistakeRand where
  r : ℚ
  posIdx : Nat
  repIdx : Nat

/-- The all-zero randomness oracle, used for concrete evaluations. -/
def rngZero : Nat → MistakeRand := fun _ => ⟨0, 0, 0⟩

/-- font_parser.py line 10: `self.vowels = 'aeiou'`. -/
def vowels : List Char := ['a', 'e', 'i', 'o', 'u']

/-- Python `str.isalpha()` on the ASCII fragment: non-empty and all
alphabetic. -/
def pyIsAlphaStr (w : List Char) : Bool := !w.isEmpty && w.all (fun c => c.isAlpha)

/-- Python `str.islower()` on the ASCII fragment: at least one cased (here:
alphabetic) character, and every cased character lowercase. -/
def pyIsLowerStr (w : List Char) : Bool :=
  w.any (fun c => c.isAlpha) && w.all (fun c => !c.isAlpha || c.isLower)

/-- font_parser.py line 42: `[i for i, char in enumerate(word) if char in self.vowels]`,
written with an explicit running index. -/
def vowelPositionsAux : List Char → Nat → List Nat
  | [], _ => []
  | c :: cs, k =>
    if decide (c ∈ vowels) then k :: vowelPositionsAux cs (k + 1)
    else vowelPositionsAux cs (k + 1)

/-- Positions of vowels in a word (font_parser.py line 42). -/
def vowelPositions (w : List Char) : List Nat := vowelPositionsAux w 0

/-- font_parser.py lines 14-16, `set_mistake_frequency`:
`self.mistake_frequency = max(0.0, min(1.0, frequency))`. -/
def setMistakeFrequency (frequency : ℚ) : ℚ := max 0 (min 1 frequency)

/-- font_parser.py lines 18-54, `generate_mistake`. Returns the (possibly
modified) word and the was-modified flag. -/
def generateMistake (freq : ℚ) (rnd : MistakeRand) (word : List Char) :
    List Char × Bool :=
  if word.length ≤ 2 || !pyIsLowerStr word || !pyIsAlphaStr word then
    (word, false)
  else if freq ≤ rnd.r then
    (word, false)
  else
    let vps := vowelPositions word
    if vps.isEmpty then (word, false)
    else
      let pos := vps.getD (rnd.posIdx % vps.length) 0
      let current := word.getD pos ' '
      let reps := vowels.filter (fun v => decide (v ≠ current))
      let replacement := reps.getD (rnd.repIdx % reps.length) 'a'
      (word.take pos ++ replacement :: word.drop (pos + 1), true)

/-- Python `str.split()` whitespace set. -/
def pyIsSpace (c : Char) : Bool :=
  c = ' ' || c = '\t' || c = '\n' || c = '\r' || c = '\x0b' || c = '\x0c'

/-- Helper for `pySplit`; `acc` holds the current word reversed. -/
def pySplitAux : List Char → List Char → List (List Char)
  | [], acc => if acc.isEmpty then [] else [acc.reverse]
  | c :: cs, acc =>
    if pyIsSpace c then
      if acc.isEmpty then pySplitAux cs []
      else acc.reverse :: pySplitAux cs []
    else pySplitAux cs (c :: acc)

/-- Python `str.split()` with no arguments: split on whitespace runs,
dropping empty words (font_parser.py line 356). -/
def pySplit (s : List Char) : List (List Char) := pySplitAux s []

/-- font_parser.py lines 306-307 and 380: the default box shape used both as
the entry for unimplemented ASCII characters and as the `dict.get` fallback. -/
def defaultBox : List (List (ℚ × ℚ)) := [[(0, 15), (15, 15), (15, 30), (0, 30), (0, 15)]]

/-- font_parser.py `load_font` (lines 56-320): the development font table.
Characters not listed explicitly get the default box (the code inserts the
box for every printable ASCII character not already present, and
`font_data.get` falls back to the same box for everything else, so the two
cases coincide). The space character has no strokes. -/
def fontData (c : Char) : List (List (ℚ × ℚ)) :=
  if c = 'A' then [[(0, 40), (20, 0), (40, 40)], [(10, 25), (30, 25)]]
  else if c = 'B' then [[(0, 0), (0, 40)],
    [(0, 0), (20, 0), (25, 5), (25, 15), (20, 20)],
    [(0, 20), (20, 20), (30, 25), (30, 35), (20, 40), (0, 40)]]
  else if c = 'C' then [[(30, 5), (20, 0), (10, 0), (0, 10), (0, 30), (10, 40), (20, 40), (30, 35)]]
  else if c = 'D' then [[(0, 0), (0, 40)], [(0, 0), (20, 0), (30, 10), (30, 30), (20, 40), (0, 40)]]
  else if c = 'E' then [[(30, 0), (0, 0), (0, 40), (30, 40)], [(0, 20), (20, 20)]]
  else if c = 'F' then [[(0, 40), (0, 0), (30, 0)], [(0, 20), (20, 20)]]
  else if c = 'G' then [[(30, 5), (20, 0), (10, 0), (0, 10), (0, 30), (10, 40), (20, 40), (30, 35), (30, 20), (15, 20)]]
  else if c = 'H' then [[(0, 0), (0, 40)], [(0, 20), (30, 20)], [(30, 0), (30, 40)]]
  else if c = 'I' then [[(0, 0), (20, 0)], [(10, 0), (10, 40)], [(0, 40), (20, 40)]]
  else if c = 'J' then [[(20, 0), (20, 30), (15, 38), (5, 38), (0, 30)]]
  else if c = 'K' then [[(0, 0), (0, 40)], [(0, 20), (30, 0)], [(0, 20), (30, 40)]]
  else if c = 'L' then [[(0, 0), (0, 40), (30, 40)]]
  else if c = 'M' then [[(0, 40), (0, 0), (20, 20), (40, 0), (40, 40)]]
  else if c = 'N' then [[(0, 40), (0, 0), (30, 40), (30, 0)]]
  else if c = 'O' then [[(10, 0), (20, 0), (30, 10), (30, 30), (20, 40), (10, 40), (0, 30), (0, 10), (10, 0)]]
  else if c = 'P' then [[(0, 40), (0, 0), (20, 0), (30, 5), (30, 15), (20, 20), (0, 20)]]
  else if c = 'Q' then [[(10, 0), (20, 0), (30, 10), (30, 30), (20, 40), (10, 40), (0, 30), (0, 10), (10, 0)], [(15, 25), (35, 45)]]
  else if c = 'R' then [[(0, 40), (0, 0), (20, 0), (30, 5), (30, 15), (20, 20), (0, 20)], [(15, 20), (30, 40)]]
  else if c = 'S' then [[(30, 5), (20, 0), (10, 0), (0, 5), (0, 15), (30, 25), (30, 35), (20, 40), (10, 40), (0, 35)]]
  else if c = 'T' then [[(0, 0), (40, 0)], [(20, 0), (20, 40)]]
  else if c = 'U' then [[(0, 0), (0, 30), (10, 40), (20, 40), (30, 30), (30, 0)]]
  else if c = 'V' then [[(0, 0), (15, 40), (30, 0)]]
  else if c = 'W' then [[(0, 0), (10, 40), (20, 20), (30, 40), (40, 0)]]
  else if c = 'X' then [[(0, 0), (30, 40)], [(0, 40), (30, 0)]]
  else if c = 'Y' then [[(0, 0), (15, 20), (30, 0)], [(15, 20), (15, 40)]]
  else if c = 'Z' then [[(0, 0), (30, 0), (0, 40), (30, 40)]]
  else if c = 'a' then [[(20, 30), (10, 30), (0, 25), (0, 20), (5, 15), (25, 15)], [(25, 15), (25, 30)]]
  else if c = 'b' then [[(0, 0), (0, 30)], [(0, 20), (10, 15), (20, 20), (20, 25), (10, 30), (0, 25)]]
  else if c = 'c' then [[(20, 17), (10, 15), (0, 20), (0, 25), (10, 30), (20, 28)]]
  else if c = 'd' then [[(20, 0), (20, 30)], [(20, 25), (10, 30), (0, 25), (0, 20), (10, 15), (20, 20)]]
  else if c = 'e' then [[(0, 23), (20, 23), (20, 20), (10, 15), (0, 20), (0, 25), (10, 30), (20, 28)]]
  else if c = 'f' then [[(10, 30), (10, 5), (15, 0), (20, 0)], [(5, 15), (15, 15)]]
  else if c = 'g' then [[(20, 15), (20, 35), (15, 40), (5, 40), (0, 35)], [(20, 25), (10, 30), (0, 25), (0, 20), (10, 15), (20, 20)]]
  else if c = 'h' then [[(0, 0), (0, 30)], [(0, 20), (10, 15), (20, 20), (20, 30)]]
  else if c = 'i' then [[(10, 15), (10, 30)], [(10, 5), (10, 7)]]
  else if c = 'j' then [[(10, 15), (10, 35), (5, 40), (0, 35)], [(10, 5), (10, 7)]]
  else if c = '.' then [[(0, 38), (0, 40)]]
  else if c = ',' then [[(0, 38), (0, 42), (-2, 44)]]
  else if c = ' ' then []
  else if c = '?' then [[(0, 10), (0, 5), (5, 0), (15, 0), (20, 5), (20, 10), (10, 20), (10, 25)], [(10, 35), (10, 37)]]
  else if c = '!' then [[(10, 0), (10, 25)], [(10, 35), (10, 37)]]
  else defaultBox

/-- font_parser.py line 337: `margin = 50`. -/
def margin : ℚ := 50

/-- font_parser.py line 348: `max_width = 600 - (margin * 2)`. -/
def maxWidth : ℚ := 600 - margin * 2

/-- The per-pass layout parameters of `get_text_paths`
(font_parser.py lines 344-347). -/
structure LayoutParams where
  scale : ℚ
  charWidth : ℚ
  charHeight : ℚ
  spacing : ℚ

/-- Scale one stroke and position it at the cursor
(font_parser.py lines 384-392). -/
def strokeToPath (rx yPos scale : ℚ) (stroke : List (ℚ × ℚ)) : PlotPath :=
  stroke.map (fun q => ⟨rx + q.1 * scale, yPos + q.2 * scale⟩)

/-- Paths emitted for one character at cursor position `rx`: one per stroke,
kept only when it has at least two points (font_parser.py lines 378-394). -/
def charPathsAt (rx yPos scale : ℚ) (c : Char) : List PlotPath :=
  (fontData c).filterMap (fun stroke =>
    let path := strokeToPath rx yPos scale stroke
    if 2 ≤ path.length then some path else none)

/-- Render the characters of one word, advancing the cursor by
`char_width + spacing * 0.5` per character (font_parser.py lines 378-397).
Returns the emitted paths and the final cursor. -/
def renderChars (p : LayoutParams) (yPos : ℚ) : List Char → ℚ → List PlotPath × ℚ
  | [], rx => ([], rx)
  | c :: cs, rx =>
    let here := charPathsAt rx yPos p.scale c
    let rest := renderChars p yPos cs (rx + p.charWidth + p.spacing * (1 / 2))
    (here ++ rest.1, rest.2)

/-- Render one line of words: double word spacing before every word except
the first (font_parser.py lines 372-397 and 421-446). -/
def renderLine (p : LayoutParams) (yPos lineStartX : ℚ) :
    List (List Char) → ℚ → List PlotPath
  | [], _ => []
  | w :: ws, rx =>
    let rx1 := if lineStartX < rx then rx + p.spacing * 2 else rx
    let r := renderChars p yPos w rx1
    r.1 ++ renderLine p yPos lineStartX ws r.2

/-- Strike-through bookkeeping record (font_parser.py lines 411-415). -/
structure MistakeMark where
  x : ℚ
  y : ℚ
  width : ℚ

/-- The mutable locals of the word loop in `get_text_paths`
(`paths`, `y_pos`, `current_line`, `current_x`, `mistakes_to_strike`;
`line_start_x` always equals `margin`). -/
structure LayoutState where
  paths : List PlotPath
  yPos : ℚ
  currentLine : List (List Char)
  currentX : ℚ
  mistakes : List MistakeMark

/-- The code's per-word width estimate
`len(modified_word) * char_width * 1.2` (font_parser.py line 367). -/
def wordWidthEst (p : LayoutParams) (w : List Char) : ℚ :=
  (w.length : ℚ) * p.charWidth * (6 / 5)

/-- One iteration of the word loop of `get_text_paths`
(font_parser.py lines 364-417): resolve the word through `generate_mistake`,
wrap (render the pending line and advance `y_pos`) when the running cursor
would exceed `max_width + margin`, append the word to the current line,
record a strike-through mark if it was modified, advance the cursor. -/
def wordStep (p : LayoutParams) (freq : ℚ) (rnd : MistakeRand)
    (word : List Char) (st : LayoutState) : LayoutState :=
  let g := generateMistake freq rnd word
  let ww := wordWidthEst p g.1
  let st1 :=
    if maxWidth + margin < st.currentX + ww ∧ st.currentLine ≠ [] then
      { paths := st.paths ++ renderLine p st.yPos margin st.currentLine margin,
        yPos := st.yPos + p.charHeight * (3 / 2),
        currentLine := [], currentX := margin, mistakes := st.mistakes }
    else st
  { st1 with
    currentLine := st1.currentLine ++ [g.1],
    mistakes :=
      if g.2 then st1.mistakes ++ [⟨st1.currentX, st1.yPos, ww⟩] else st1.mistakes,
    currentX := st1.currentX + ww + p.charWidth * (1 / 5) }

/-- The word loop of `get_text_paths`; `k` indexes the randomness oracle
(one `MistakeRand` consumed per word, in order). -/
def wordLoop (p : LayoutParams) (freq : ℚ) (rng : Nat → MistakeRand) :
    List (List Char) → Nat → LayoutState → LayoutState
  | [], _, st => st
  | w :: ws, k, st => wordLoop p freq rng ws (k + 1) (wordStep p freq (rng k) w st)

/-- The strike-through path appended for one recorded mistake
(font_parser.py lines 449-455). -/
def strikePath (p : LayoutParams) (m : MistakeMark) : PlotPath :=
  [⟨m.x, m.y + p.charHeight * (1 / 2)⟩,
   ⟨m.x + m.width, m.y + p.charHeight * (1 / 2) + p.charHeight * (1 / 10)⟩]

/-- font_parser.py lines 322-459, `get_text_paths`, with the scale factor as
an explicit parameter (the body of `get_text_paths` after the single
assignment `scale = font_size / 12`). -/
def getTextPathsScaled (text : List Char) (fontSize freq scale : ℚ)
    (rng : Nat → MistakeRand) : List PlotPath :=
  if text.isEmpty then []
  else
    let p : LayoutParams := ⟨scale, 40 * scale, 40 * scale, 15 * scale⟩
    let st0 : LayoutState := ⟨[], margin + fontSize, [], margin, []⟩
    let st := wordLoop p freq rng (pySplit text) 0 st0
    (st.paths ++ renderLine p st.yPos margin st.currentLine margin)
      ++ st.mistakes.map (strikePath p)

/-- font_parser.py lines 322-459, `get_text_paths`: the scale factor is
computed once per call as `font_size / 12` (line 344), and the derived
layout parameters `char_width`, `char_height` and `spacing`
(lines 345-347) are shared by every line of the pass. -/
def getTextPaths (text : List Char) (fontSize freq : ℚ)
    (rng : Nat → MistakeRand) : List PlotPath :=
  if text.isEmpty then []
  else
    let scale := fontSize / 12
    let p : LayoutParams := ⟨scale, 40 * scale, 40 * scale, 15 * scale⟩
    let st0 : LayoutState := ⟨[], margin + fontSize, [], margin, []⟩
    let st := wordLoop p freq rng (pySplit text) 0 st0
    (st.paths ++ renderLine p st.yPos margin st.currentLine margin)
      ++ st.mistakes.map (strikePath p)

/-- The word step specialised to no mistakes: the word passes through
unchanged and nothing is recorded for strike-through. -/
def pureWordStep (p : LayoutParams) (word : List Char) (st : LayoutState) :
    LayoutState :=
  let ww := wordWidthEst p word
  let st1 :=
    if maxWidth + margin < st.currentX + ww ∧ st.currentLine ≠ [] then
      { paths := st.paths ++ renderLine p st.yPos margin st.currentLine margin,
        yPos := st.yPos + p.charHeight * (3 / 2),
        currentLine := [], currentX := margin, mistakes := st.mistakes }
    else st
  { st1 with
    currentLine := st1.currentLine ++ [word],
    currentX := st1.currentX + ww + p.charWidth * (1 / 5) }

/-- The word loop with no mistakes. -/
def pureWordLoop (p : LayoutParams) : List (List Char) → LayoutState → LayoutState
  | [], st => st
  | w :: ws, st => pureWordLoop p ws (pureWordStep p w st)

/-- Mistake-free layout: `get_text_paths` with every word passing through
`generate_mistake` unchanged and no strike-through section. -/
def getTextPathsPure (text : List Char) (fontSize : ℚ) : List PlotPath :=
  if text.isEmpty then []
  else
    let scale := fontSize / 12
    let p : LayoutParams := ⟨scale, 40 * scale, 40 * scale, 15 * scale⟩
    let st0 : LayoutState := ⟨[], margin + fontSize, [], margin, []⟩
    let st := pureWordLoop p (pySplit text) st0
    st.paths ++ renderLine p st.yPos margin st.currentLine margin

/-- The code's estimate of the total text width: the sum of the per-word
estimates `len(word) * char_width * 1.2` (font_parser.py line 367). -/
def estTextWidth (p : LayoutParams) (text : List Char) : ℚ :=
  ((pySplit text).map (wordWidthEst p)).sum

/-! ### Plot executor (axidraw_controller.py, class AxiDrawController) -/

/-- The state of an `AxiDrawController` relevant to `plot_paths`:
`self.connected`, `self.dev_mode`, and whether `self.ad` is non-None. -/
structure Controller where
  connected : Bool
  devMode : Bool
  adSome : Bool

/-- A controller in development mode that has been connected
(`connect` with `dev_mode=True` sets `self.connected = True`). -/
def devController : Controller := ⟨true, true, false⟩

/-- A controller in hardware mode with a connected, initialised device. -/
def hwController : Controller := ⟨true, false, true⟩

/-- WORKSPACE_MIN_X (axidraw_controller.py line 317). -/
def workspaceMinX : ℚ := 10
/-- WORKSPACE_MAX_X (axidraw_controller.py line 318). -/
def workspaceMaxX : ℚ := 95
/-- WORKSPACE_MIN_Y (axidraw_controller.py line 319). -/
def workspaceMinY : ℚ := 10
/-- WORKSPACE_MAX_Y (axidraw_controller.py line 320). -/
def workspaceMaxY : ℚ := 50

/-- The workspace-bounds test of axidraw_controller.py lines 349-350. -/
def inWorkspace (q : Point) : Bool :=
  decide (workspaceMinX ≤ q.x) && decide (q.x ≤ workspaceMaxX) &&
  decide (workspaceMinY ≤ q.y) && decide (q.y ≤ workspaceMaxY)

/-- How the hardware loop of `plot_paths` treats one path
(axidraw_controller.py lines 341-356): an empty path is skipped; a path
whose FIRST point is outside the workspace bounds is skipped; otherwise the
whole path is drawn unchanged (`some` of the path to draw). Only the first
point is ever tested against the bounds. -/
def codeProcessPath (path : PlotPath) : Option PlotPath :=
  match path with
  | [] => none
  | fp :: _ => if inWorkspace fp then some path else none

/-- Modelled from the spec: the per-path processing the specification
describes for hardware mode ("for each path, filter out points outside
WorkspaceBounds — if the filtered path has fewer than 2 points, skip the
whole path"). Used only for comparison with `codeProcessPath`; no such
filtering exists in the code. -/
def claimedProcessPath (path : PlotPath) : Option PlotPath :=
  let f := path.filter inWorkspace
  if f.length < 2 then none else some f

/-- The paths the hardware loop actually draws, in order. -/
def hwPlottedPaths (paths : List PlotPath) : List PlotPath :=
  paths.filterMap codeProcessPath

/-- The number of paths the hardware loop skips. -/
def hwSkippedCount (paths : List PlotPath) : Nat :=
  paths.countP (fun path => (codeProcessPath path).isNone)

/-- The statistics dictionary returned by simulated plotting
(axidraw_controller.py lines 284-289), without the float-valued
`total_distance`, which is modelled separately over `ℝ` by
`devTotalDistance`. -/
structure SimStats where
  totalPaths : Nat
  penMovements : Nat
  estTime : Nat
deriving DecidableEq, Repr

/-- The pen-movement counter of the simulation loop (axidraw_controller.py
lines 238-265): every non-empty path contributes one pen-down and one
pen-up; empty paths are skipped with a warning. -/
def simPenMovements : List PlotPath → Nat
  | [] => 0
  | path :: rest => (if path.isEmpty then 0 else 2) + simPenMovements rest

/-- Squared length of one segment. -/
def segDistSq (a b : Point) : ℚ :=
  (b.x - a.x) * (b.x - a.x) + (b.y - a.y) * (b.y - a.y)

/-- Euclidean length of the polyline continuing from `prev`
(axidraw_controller.py lines 252-260). -/
noncomputable def pathDistFrom (prev : Point) : List Point → ℝ
  | [] => 0
  | q :: rest => Real.sqrt (segDistSq prev q : ℚ) + pathDistFrom q rest

/-- Euclidean length of one path (0 for the empty path). -/
noncomputable def pathDist : PlotPath → ℝ
  | [] => 0
  | q :: rest => pathDistFrom q rest

/-- `total_path_distance` accumulated by the simulation loop: empty paths
are skipped and contribute nothing. -/
noncomputable def devTotalDistance : List PlotPath → ℝ
  | [] => 0
  | path :: rest => (if path.isEmpty then 0 else pathDist path) + devTotalDistance rest

/-- The structured result dictionary of `plot_paths`
(success flag, error string, message string, simulated statistics). -/
structure PlotResult where
  success : Bool
  error : Option String
  message : Option String
  stats : Option SimStats

/-- axidraw_controller.py lines 213-429, `plot_paths`, as a total function on
the controller state (device commands are assumed to succeed; their
occurrence is modelled by `usesDevice`). Not connected: the code raises
internally and the outer handler returns a failure dictionary (lines
222-224 and 424-429). Development mode: the simulation result (lines
226-290). Hardware mode without a device object: failure (lines 292-296);
otherwise the hardware run completes with success (lines 406-409). -/
def plotPaths (c : Controller) (paths : List PlotPath) : PlotResult :=
  if !c.connected then
    ⟨false, some "Failed to plot: AxiDraw not connected", none, none⟩
  else if c.devMode then
    ⟨true, none, none, some ⟨paths.length, simPenMovements paths, 2 * paths.length⟩⟩
  else if !c.adSome then
    ⟨false, some "AxiDraw device not initialized", none, none⟩
  else
    ⟨true, none, some "Plotting completed successfully", none⟩

/-- Whether `plot_paths` issues any command to the device in the given
controller state: never before the connected check, never in development
mode, always in a hardware run (it homes the axes at minimum). -/
def usesDevice (c : Controller) : Bool :=
  if !c.connected then false
  else if c.devMode then false
  else if !c.adSome then false
  else true

/-! ### Helper lemmas -/

section Evaluation

attribute [local semireducible] Rat.mul Rat.add Rat.inv Rat.sub

/-- C10: `set_mistake_frequency` stores `max(0, min(1, f))`, so the stored
mistake frequency is always clamped into the interval `[0, 1]`, for every
rational input including out-of-range ones, and is never rejected. -/
theorem C10_set_mistake_frequency_clamps (f : ℚ) :
    setMistakeFrequency f = max 0 (min 1 f) ∧
    0 ≤ setMistakeFrequency f ∧ setMistakeFrequency f ≤ 1 :=
  ⟨rfl, le_max_left 0 (min 1 f), max_le zero_le_one (min_le_left 1 f)⟩

/-- C9: calling `plot_paths` while the executor is not connected yields a
structured failure result (success false, with the error message produced by
the outer exception handler) and no device command is issued. -/
theorem C9_plot_not_connected (c : Controller) (paths : List PlotPath)
    (h : c.connected = false) :
    (plotPaths c paths).success = false ∧
    (plotPaths c paths).error = some "Failed to plot: AxiDraw not connected" ∧
    usesDevice c = false := by
  simp [plotPaths, usesDevice, h]

/-- Witness for C9 at a concrete disconnected controller. -/
theorem C9_plot_not_connected_witness :
    (plotPaths ⟨false, false, false⟩ [[⟨20, 20⟩, ⟨30, 30⟩]]).success = false ∧
    (plotPaths ⟨false, false, false⟩ [[⟨20, 20⟩, ⟨30, 30⟩]]).error =
      some "Failed to plot: AxiDraw not connected" ∧
    usesDevice ⟨false, false, false⟩ = false :=
  C9_plot_not_connected ⟨false, false, false⟩ [[⟨20, 20⟩, ⟨30, 30⟩]] rfl

/-- C6: a word that is ineligible (too short, not entirely lowercase, or not
entirely alphabetic) is returned unchanged with the modified flag false, for
every frequency setting and every outcome of the random source. -/
theorem C6_ineligible_word_unchanged (freq : ℚ) (rnd : MistakeRand)
    (w : List Char)
    (h : w.length ≤ 2 ∨ pyIsLowerStr w = false ∨ pyIsAlphaStr w = false) :
    generateMistake freq rnd w = (w, false) := by
  have hb : (decide (w.length ≤ 2) || !pyIsLowerStr w || !pyIsAlphaStr w) = true := by
    rcases h with h | h | h <;> simp [h]
  rw [generateMistake, if_pos hb]

/-- Witness for C6: a two-letter word is left alone even at frequency 1 with
randomness that would otherwise trigger a substitution. -/
theorem C6_ineligible_word_unchanged_witness :
    generateMistake 1 ⟨0, 1, 2⟩ ['h', 'i'] = (['h', 'i'], false) :=
  C6_ineligible_word_unchanged 1 ⟨0, 1, 2⟩ ['h', 'i'] (Or.inl (by decide))

/-- C8 counterexample: in simulated mode a single-point path is NOT skipped.
The simulation loop only skips empty paths (axidraw_controller.py line 240),
so a one-point path lowers and raises the pen, contributing two pen
movements to the returned statistics instead of the zero the claim asserts. -/
theorem C8_single_point_path_not_skipped_cex :
    (plotPaths devController [[⟨20, 20⟩]]).stats = some ⟨1, 2, 2⟩ ∧
    (2 : Nat) ≠ 0 :=
  ⟨rfl, by decide⟩

/-- C8 amended: in simulated mode, empty paths are skipped and contribute
zero drawing distance and zero pen movements; single-point paths are NOT
skipped — they contribute two pen movements (one pen-down, one pen-up) and
zero drawing distance; no device command is issued in simulated mode. -/
theorem C8_amended_sim_skips_only_empty (paths : List PlotPath) (q : Point) :
    simPenMovements ([] :: paths) = simPenMovements paths ∧
    devTotalDistance ([] :: paths) = devTotalDistance paths ∧
    simPenMovements ([q] :: paths) = 2 + simPenMovements paths ∧
    devTotalDistance ([q] :: paths) = devTotalDistance paths ∧
    (plotPaths devController paths).success = true ∧
    (plotPaths devController paths).stats =
      some ⟨paths.length, simPenMovements paths, 2 * paths.length⟩ ∧
    usesDevice devController = false := by
  refine ⟨by simp [simPenMovements], by simp [devTotalDistance], ?_, ?_, rfl, rfl, rfl⟩
  · simp [simPenMovements]
  · simp [devTotalDistance, pathDist, pathDistFrom]

/-- C2 counterexample: the hardware loop does not filter individual
out-of-bounds points. For the path from (50, 30) to (200, 30) — whose second
point has x = 200 > 95 — the claimed per-point filtering would leave fewer
than 2 points and skip the path, but the code checks only the first point
and draws the whole path, out-of-bounds point included. -/
theorem C2_no_per_point_filtering_cex :
    claimedProcessPath [⟨50, 30⟩, ⟨200, 30⟩] = none ∧
    codeProcessPath [⟨50, 30⟩, ⟨200, 30⟩] = some [⟨50, 30⟩, ⟨200, 30⟩] ∧
    (hwPlottedPaths [[⟨50, 30⟩, ⟨200, 30⟩]]).any
      (fun path => path.any (fun q => !inWorkspace q)) = true := by
  refine ⟨by decide, by decide, by decide⟩

/-- C2 amended: in hardware mode `plot_paths` validates only the FIRST point
of each path against WorkspaceBounds; a non-empty path whose first point
lies outside is skipped whole (the run is not aborted and the skip count
grows by one; no per-point filtering and no invalid-point counter exist in
the returned result), and the overall result still has success true. -/
theorem C2_amended_first_point_validation (paths : List PlotPath)
    (path : PlotPath) (h1 : path ≠ [])
    (h2 : inWorkspace (path.headD ⟨0, 0⟩) = false) :
    codeProcessPath path = none ∧
    hwSkippedCount (path :: paths) = hwSkippedCount paths + 1 ∧
    hwPlottedPaths (path :: paths) = hwPlottedPaths paths ∧
    (plotPaths hwController (path :: paths)).success = true := by
  obtain ⟨fp, rest, rfl⟩ := List.exists_cons_of_ne_nil h1
  simp only [List.headD_cons] at h2
  refine ⟨?_, ?_, ?_, rfl⟩
  · simp [codeProcessPath, h2]
  · simp [hwSkippedCount, List.countP_cons, codeProcessPath, h2]
  · simp [hwPlottedPaths, List.filterMap_cons, codeProcessPath, h2]

/-- Witness for C2 amended: a path starting at the origin (outside the
10-95 x 10-50 mm workspace) is skipped, the skip count grows, and the run
over just this path still reports success. -/
theorem C2_amended_first_point_validation_witness :
    codeProcessPath [⟨0, 0⟩, ⟨50, 30⟩] = none ∧
    hwSkippedCount [[⟨0, 0⟩, ⟨50, 30⟩]] = hwSkippedCount [] + 1 ∧
    hwPlottedPaths [[⟨0, 0⟩, ⟨50, 30⟩]] = hwPlottedPaths [] ∧
    (plotPaths hwController [[⟨0, 0⟩, ⟨50, 30⟩]]).success = true :=
  C2_amended_first_point_validation [] [⟨0, 0⟩, ⟨50, 30⟩] (by decide) (by decide)

/-- C1 counterexample: the paths handed to the plot executor are not inside
WorkspaceBounds. The layout of the single character A at font size 12 emits
the point (50, 102), whose y-coordinate 102 exceeds maxY = 50 (the layout
works in preview pixel coordinates and no physical-space clamping exists
anywhere in the pipeline). -/
theorem C1_point_outside_workspace_cex :
    (⟨50, 102⟩ : Point) ∈ (getTextPaths ['A'] 12 0 rngZero).flatten ∧
    inWorkspace ⟨50, 102⟩ = false := by
  refine ⟨by decide, by decide⟩

/-- C1 amended: points of paths submitted to the executor may lie outside
WorkspaceBounds; the guarantee the code gives is weaker — the hardware loop
skips any path whose first point is out of bounds, so every path it
actually draws is non-empty and has its first point inside WorkspaceBounds
(later points are not checked). -/
theorem C1_amended_drawn_paths_start_in_bounds (paths : List PlotPath)
    (path : PlotPath) (h : path ∈ hwPlottedPaths paths) :
    path ≠ [] ∧ inWorkspace (path.headD ⟨0, 0⟩) = true := by
  rw [hwPlottedPaths, List.mem_filterMap] at h
  obtain ⟨a, _, ha⟩ := h
  cases a with
  | nil => simp [codeProcessPath] at ha
  | cons fp rest =>
    by_cases hw : inWorkspace fp
    · rw [codeProcessPath, if_pos hw, Option.some_inj] at ha
      subst ha
      exact ⟨List.cons_ne_nil fp rest, by simpa using hw⟩
    · rw [codeProcessPath, if_neg hw] at ha
      cases ha

/-- Witness for C1 amended: a path whose first point is at (50, 30) survives
the hardware validation and indeed starts inside the workspace. -/
theorem C1_amended_drawn_paths_start_in_bounds_witness :
    ([⟨50, 30⟩, ⟨60, 40⟩] : PlotPath) ≠ [] ∧
    inWorkspace (([⟨50, 30⟩, ⟨60, 40⟩] : PlotPath).headD ⟨0, 0⟩) = true :=
  C1_amended_drawn_paths_start_in_bounds [[⟨50, 30⟩, ⟨60, 40⟩]]
    [⟨50, 30⟩, ⟨60, 40⟩] (by decide)

/-- C3 counterexample: the scale factor is not shrink-to-fit. At font size
12 the pass uses scale 12/12 with the parameters the code derives from it,
yet a single 20-character word has estimated width 960, far beyond the
width budget (max_width = 500, wrap threshold max_width + margin = 550),
and the layout actually emits points with x beyond the threshold: nothing
is ever rescaled to fit. -/
theorem C3_scale_not_shrink_to_fit_cex :
    maxWidth + margin <
      estTextWidth ⟨12 / 12, 40 * (12 / 12), 40 * (12 / 12), 15 * (12 / 12)⟩
        (List.replicate 20 'a') ∧
    (getTextPaths (List.replicate 20 'a') 12 0 rngZero).any
      (fun path => path.any (fun q => decide (maxWidth + margin < q.x))) = true := by
  refine ⟨by decide, by decide⟩

/-- C3 amended: `get_text_paths` computes a single global scale factor once
per layout pass, equal to fontSize/12 and shared by every line (never
re-derived per line), but the factor does not depend on the text and does
not bound the text width; the width budget is enforced only by greedy word
wrap — when the cursor plus the next word estimate exceeds
max_width + margin and the current line is non-empty, the pending line is
flushed and a fresh line starts — and a single long word can still exceed
the budget. -/
theorem C3_amended_single_scale_wrap_only (text : List Char)
    (fontSize freq : ℚ) (rng : Nat → MistakeRand) (p : LayoutParams)
    (st : LayoutState) (rnd : MistakeRand) (w : List Char)
    (h1 : maxWidth + margin <
      st.currentX + wordWidthEst p (generateMistake freq rnd w).1)
    (h2 : st.currentLine ≠ []) :
    getTextPaths text fontSize freq rng =
      getTextPathsScaled text fontSize freq (fontSize / 12) rng ∧
    (wordStep p freq rnd w st).currentLine = [(generateMistake freq rnd w).1] ∧
    (wordStep p freq rnd w st).yPos = st.yPos + p.charHeight * (3 / 2) ∧
    (wordStep p freq rnd w st).paths =
      st.paths ++ renderLine p st.yPos margin st.currentLine margin := by
  refine ⟨rfl, ?_, ?_, ?_⟩ <;>
    · simp only [wordStep, if_pos (And.intro h1 h2), List.nil_append]

/-- Witness for C3 amended at a concrete wrap: the cursor is at 600, the
word cat is added, so the pending line hi is flushed and the vertical
cursor advances. -/
theorem C3_amended_single_scale_wrap_only_witness :
    getTextPaths ['h', 'i'] 12 0 rngZero =
      getTextPathsScaled ['h', 'i'] 12 0 (12 / 12) rngZero ∧
    (wordStep ⟨1, 40, 40, 15⟩ 0 ⟨0, 0, 0⟩ ['c', 'a', 't']
        ⟨[], 62, [['h', 'i']], 600, []⟩).currentLine =
      [(generateMistake 0 ⟨0, 0, 0⟩ ['c', 'a', 't']).1] ∧
    (wordStep ⟨1, 40, 40, 15⟩ 0 ⟨0, 0, 0⟩ ['c', 'a', 't']
        ⟨[], 62, [['h', 'i']], 600, []⟩).yPos = 62 + 40 * (3 / 2) ∧
    (wordStep ⟨1, 40, 40, 15⟩ 0 ⟨0, 0, 0⟩ ['c', 'a', 't']
        ⟨[], 62, [['h', 'i']], 600, []⟩).paths =
      [] ++ renderLine ⟨1, 40, 40, 15⟩ 62 margin [['h', 'i']] margin :=
  C3_amended_single_scale_wrap_only ['h', 'i'] 12 0 rngZero ⟨1, 40, 40, 15⟩
    ⟨[], 62, [['h', 'i']], 600, []⟩ ⟨0, 0, 0⟩ ['c', 'a', 't']
    (by decide) (by decide)

end Evaluation

/-- With frequency 0 the random check `random.random() >= frequency` always
succeeds (draws are nonnegative), so `generate_mistake` is the identity. -/
theorem generateMistake_zero (rnd : MistakeRand) (w : List Char)
    (h : 0 ≤ rnd.r) : generateMistake 0 rnd w = (w, false) := by
  rw [generateMistake]
  by_cases hb : (decide (w.length ≤ 2) || !pyIsLowerStr w || !pyIsAlphaStr w) = true
  · rw [if_pos hb]
  · rw [if_neg hb, if_pos h]

/-- With frequency 0 one word step is the mistake-free word step. -/
theorem wordStep_zero (p : LayoutParams) (rnd : MistakeRand) (w : List Char)
    (st : LayoutState) (h : 0 ≤ rnd.r) :
    wordStep p 0 rnd w st = pureWordStep p w st := by
  rw [wordStep, pureWordStep, generateMistake_zero rnd w h]
  rfl

/-- With frequency 0 the whole word loop is the mistake-free loop, for any
randomness oracle with nonnegative draws. -/
theorem wordLoop_zero (p : LayoutParams) (rng : Nat → MistakeRand)
    (h : ∀ k, 0 ≤ (rng k).r) :
    ∀ (ws : List (List Char)) (k : Nat) (st : LayoutState),
      wordLoop p 0 rng ws k st = pureWordLoop p ws st := by
  intro ws
  induction ws with
  | nil => intro k st; rfl
  | cons w ws ih =>
    intro k st
    rw [wordLoop, pureWordLoop, wordStep_zero p (rng k) w st (h k), ih]

/-- The mistake-free loop never records strike-through marks. -/
theorem pureWordLoop_mistakes (p : LayoutParams) :
    ∀ (ws : List (List Char)) (st : LayoutState),
      (pureWordLoop p ws st).mistakes = st.mistakes := by
  intro ws
  induction ws with
  | nil => intro st; rfl
  | cons w ws ih =>
    intro st
    rw [pureWordLoop, ih]
    rw [pureWordStep]
    split <;> rfl

/-- With frequency 0, `get_text_paths` equals the mistake-free layout: no
word is substituted and no strike-through path is appended. -/
theorem getTextPaths_zero (text : List Char) (fontSize : ℚ)
    (rng : Nat → MistakeRand) (h : ∀ k, 0 ≤ (rng k).r) :
    getTextPaths text fontSize 0 rng = getTextPathsPure text fontSize := by
  rw [getTextPaths, getTextPathsPure]
  split
  · rfl
  · simp only [wordLoop_zero _ rng h, pureWordLoop_mistakes, List.map_nil,
      List.append_nil]

/-- C4: with mistake frequency 0 the layout is deterministic and
identity-preserving — for any two outcomes of the random source (draws of
`random.random()` are nonnegative), both calls equal the mistake-free
layout, which renders the input text unchanged and emits no strike-through
paths, and in particular the two calls produce identical path sequences. -/
theorem C4_freq_zero_layout_deterministic (text : List Char) (fontSize : ℚ)
    (rng1 rng2 : Nat → MistakeRand)
    (h1 : ∀ k, 0 ≤ (rng1 k).r) (h2 : ∀ k, 0 ≤ (rng2 k).r) :
    getTextPaths text fontSize 0 rng1 = getTextPathsPure text fontSize ∧
    getTextPaths text fontSize 0 rng2 = getTextPathsPure text fontSize ∧
    getTextPaths text fontSize 0 rng1 = getTextPaths text fontSize 0 rng2 := by
  refine ⟨getTextPaths_zero text fontSize rng1 h1,
    getTextPaths_zero text fontSize rng2 h2, ?_⟩
  rw [getTextPaths_zero text fontSize rng1 h1, getTextPaths_zero text fontSize rng2 h2]

/-- Witness for C4 at the text hi with two different concrete oracles. -/
theorem C4_freq_zero_layout_deterministic_witness :
    getTextPaths ['h', 'i'] 12 0 rngZero = getTextPathsPure ['h', 'i'] 12 ∧
    getTextPaths ['h', 'i'] 12 0 (fun k => ⟨1 / 2, k, k + 1⟩) =
      getTextPathsPure ['h', 'i'] 12 ∧
    getTextPaths ['h', 'i'] 12 0 rngZero =
      getTextPaths ['h', 'i'] 12 0 (fun k => ⟨1 / 2, k, k + 1⟩) :=
  C4_freq_zero_layout_deterministic ['h', 'i'] 12 rngZero
    (fun k => ⟨1 / 2, k, k + 1⟩) (fun _ => le_refl 0) (fun _ => by norm_num)

/-- Every path emitted for a character has at least two points: the code
appends a scaled stroke only after the guard `len(path) >= 2`
(font_parser.py lines 393-394 and 442-443). -/
theorem mem_charPathsAt_length {rx yPos scale : ℚ} {c : Char}
    {path : PlotPath} (h : path ∈ charPathsAt rx yPos scale c) :
    2 ≤ path.length := by
  rw [charPathsAt, List.mem_filterMap] at h
  obtain ⟨stroke, _, hs⟩ := h
  dsimp only at hs
  split at hs
  · cases hs
    assumption
  · cases hs

/-- Every path emitted while rendering a word has at least two points. -/
theorem mem_renderChars_length (p : LayoutParams) (yPos : ℚ) :
    ∀ (cs : List Char) (rx : ℚ) (path : PlotPath),
      path ∈ (renderChars p yPos cs rx).1 → 2 ≤ path.length := by
  intro cs
  induction cs with
  | nil => intro rx path h; cases h
  | cons c cs ih =>
    intro rx path h
    rw [renderChars] at h
    rcases List.mem_append.mp h with h | h
    · exact mem_charPathsAt_length h
    · exact ih _ path h

/-- Every path emitted while rendering a line has at least two points. -/
theorem mem_renderLine_length (p : LayoutParams) (yPos lineStartX : ℚ) :
    ∀ (ws : List (List Char)) (rx : ℚ) (path : PlotPath),
      path ∈ renderLine p yPos lineStartX ws rx → 2 ≤ path.length := by
  intro ws
  induction ws with
  | nil => intro rx path h; cases h
  | cons w ws ih =>
    intro rx path h
    rw [renderLine] at h
    rcases List.mem_append.mp h with h | h
    · exact mem_renderChars_length p yPos w _ path h
    · exact ih _ path h

/-- One word step preserves the at-least-two-points invariant of the
accumulated path list. -/
theorem wordStep_paths_length (p : LayoutParams) (freq : ℚ)
    (rnd : MistakeRand) (w : List Char) (st : LayoutState)
    (h : ∀ path ∈ st.paths, 2 ≤ path.length) :
    ∀ path ∈ (wordStep p freq rnd w st).paths, 2 ≤ path.length := by
  intro path hp
  rw [wordStep] at hp
  dsimp only at hp
  split at hp
  · rcases List.mem_append.mp hp with hp | hp
    · exact h path hp
    · exact mem_renderLine_length p st.yPos margin st.currentLine margin path hp
  · exact h path hp

/-- The word loop preserves the at-least-two-points invariant. -/
theorem wordLoop_paths_length (p : LayoutParams) (freq : ℚ)
    (rng : Nat → MistakeRand) :
    ∀ (ws : List (List Char)) (k : Nat) (st : LayoutState),
      (∀ path ∈ st.paths, 2 ≤ path.length) →
      ∀ path ∈ (wordLoop p freq rng ws k st).paths, 2 ≤ path.length := by
  intro ws
  induction ws with
  | nil => intro k st h; exact h
  | cons w ws ih =>
    intro k st h
    rw [wordLoop]
    exact ih (k + 1) _ (wordStep_paths_length p freq (rng k) w st h)

/-- C7: every path returned by `get_text_paths` has at least two points —
for every input text, font size, mistake-frequency setting and randomness
outcome — so no path with fewer than two points ever reaches the executor. -/
theorem C7_all_paths_at_least_two_points (text : List Char)
    (fontSize freq : ℚ) (rng : Nat → MistakeRand) (path : PlotPath)
    (h : path ∈ getTextPaths text fontSize freq rng) : 2 ≤ path.length := by
  rw [getTextPaths] at h
  split at h
  · cases h
  · rcases List.mem_append.mp h with h | h
    · rcases List.mem_append.mp h with h | h
      · refine wordLoop_paths_length _ freq rng (pySplit text) 0 _ ?_ path h
        intro q hq
        cases hq
      · exact mem_renderLine_length _ _ margin _ margin path h
    · obtain ⟨m, _, hm⟩ := List.mem_map.mp h
      rw [← hm, strikePath]
      rfl

/-- Characterisation of `vowelPositionsAux`: every produced index points at
a vowel of the word (relative to the starting offset `k`). -/
theorem mem_vowelPositionsAux :
    ∀ (w : List Char) (k i : Nat), i ∈ vowelPositionsAux w k →
      k ≤ i ∧ i - k < w.length ∧ w.getD (i - k) ' ' ∈ vowels := by
  intro w
  induction w with
  | nil => intro k i h; cases h
  | cons c cs ih =>
    intro k i h
    rw [vowelPositionsAux] at h
    by_cases hc : (decide (c ∈ vowels)) = true
    · rw [if_pos hc] at h
      rcases List.mem_cons.mp h with rfl | h
      · refine ⟨le_refl i, by simp only [List.length_cons]; omega, ?_⟩
        simp only [Nat.sub_self, List.getD_cons_zero]
        exact of_decide_eq_true hc
      · obtain ⟨h1, h2, h3⟩ := ih (k + 1) i h
        refine ⟨by omega, by simp only [List.length_cons]; omega, ?_⟩
        have hik : i - k = (i - (k + 1)) + 1 := by omega
        rw [hik, List.getD_cons_succ]
        exact h3
    · rw [if_neg hc] at h
      obtain ⟨h1, h2, h3⟩ := ih (k + 1) i h
      refine ⟨by omega, by simp only [List.length_cons]; omega, ?_⟩
      have hik : i - k = (i - (k + 1)) + 1 := by omega
      rw [hik, List.getD_cons_succ]
      exact h3

/-- A word containing a vowel has a non-empty vowel-position list. -/
theorem vowelPositionsAux_ne_nil :
    ∀ (w : List Char) (k : Nat), (∃ c ∈ w, c ∈ vowels) →
      vowelPositionsAux w k ≠ [] := by
  intro w
  induction w with
  | nil =>
    intro k h
    obtain ⟨c, hc, -⟩ := h
    cases hc
  | cons c cs ih =>
    intro k h
    rw [vowelPositionsAux]
    by_cases hc : (decide (c ∈ vowels)) = true
    · rw [if_pos hc]
      exact List.cons_ne_nil _ _
    · rw [if_neg hc]
      obtain ⟨d, hd, hdv⟩ := h
      rcases List.mem_cons.mp hd with rfl | hd
      · exact absurd (decide_eq_true hdv) hc
      · exact ih (k + 1) ⟨d, hd, hdv⟩

/-- Removing one vowel from the five-element vowel list leaves a non-empty
replacement pool. -/
theorem reps_ne_nil (cur : Char) (h : cur ∈ vowels) :
    vowels.filter (fun v => decide (v ≠ cur)) ≠ [] := by
  fin_cases h <;> decide

/-- For frequency 1 and an eligible word containing a vowel,
`generate_mistake` replaces the character at some vowel position by a
different vowel and reports the modification. -/
theorem generateMistake_one_spec (rnd : MistakeRand) (w : List Char)
    (hlen : 2 < w.length) (hlow : pyIsLowerStr w = true)
    (halpha : pyIsAlphaStr w = true) (hvow : ∃ c ∈ w, c ∈ vowels)
    (hr1 : rnd.r < 1) :
    ∃ pos repl, pos < w.length ∧ w.getD pos ' ' ∈ vowels ∧
      repl ∈ vowels ∧ repl ≠ w.getD pos ' ' ∧
      generateMistake 1 rnd w = (w.set pos repl, true) := by
  have hb2 : ¬((decide (w.length ≤ 2) || !pyIsLowerStr w || !pyIsAlphaStr w) = true) := by
    simp only [hlow, halpha, Bool.not_true, Bool.or_false, decide_eq_true_eq]
    omega
  have hne : vowelPositions w ≠ [] := vowelPositionsAux_ne_nil w 0 hvow
  have hlenpos : 0 < (vowelPositions w).length := List.length_pos.mpr hne
  have hmod : rnd.posIdx % (vowelPositions w).length < (vowelPositions w).length :=
    Nat.mod_lt _ hlenpos
  set pos := (vowelPositions w).getD (rnd.posIdx % (vowelPositions w).length) 0
    with hpos
  have hposmem : pos ∈ vowelPositions w := by
    rw [hpos, List.getD_eq_getElem _ _ hmod]
    exact List.getElem_mem hmod
  obtain ⟨-, hsub, hvp⟩ := mem_vowelPositionsAux w 0 pos hposmem
  rw [Nat.sub_zero] at hsub hvp
  set cur := w.getD pos ' ' with hcur
  set reps := vowels.filter (fun v => decide (v ≠ cur)) with hreps
  have hrne : reps ≠ [] := by
    rw [hreps]
    exact reps_ne_nil cur hvp
  have hrlen : 0 < reps.length := List.length_pos.mpr hrne
  have hrmod : rnd.repIdx % reps.length < reps.length := Nat.mod_lt _ hrlen
  set repl := reps.getD (rnd.repIdx % reps.length) 'a' with hrepl
  have hrmem : repl ∈ reps := by
    rw [hrepl, List.getD_eq_getElem _ _ hrmod]
    exact List.getElem_mem hrmod
  rw [hreps] at hrmem
  obtain ⟨hrv, hrneq⟩ := List.mem_filter.mp hrmem
  refine ⟨pos, repl, hsub, hvp, hrv, of_decide_eq_true hrneq, ?_⟩
  have hemp : ¬((vowelPositions w).isEmpty = true) := by
    simpa [List.isEmpty_iff] using hne
  rw [generateMistake, if_neg hb2, if_neg (not_le.mpr hr1)]
  dsimp only
  rw [if_neg hemp]
  rw [List.set_eq_take_cons_drop repl hsub]

/-- C5: for mistake frequency 1 and an eligible word (length over two,
all-lowercase alphabetic, containing a vowel), `generate_mistake` reports a
modification, preserves the length, and differs from the input in exactly
one position — at that position both words hold a vowel, and the two
vowels differ. Holds for every outcome of the random source (draws of
`random.random()` are below 1). -/
theorem C5_freq_one_single_vowel_swap (rnd : MistakeRand) (w : List Char)
    (hlen : 2 < w.length) (hlow : pyIsLowerStr w = true)
    (halpha : pyIsAlphaStr w = true) (hvow : ∃ c ∈ w, c ∈ vowels)
    (hr1 : rnd.r < 1) :
    (generateMistake 1 rnd w).2 = true ∧
    (generateMistake 1 rnd w).1.length = w.length ∧
    ∃ i, i < w.length ∧ w.getD i ' ' ∈ vowels ∧
      (generateMistake 1 rnd w).1.getD i ' ' ∈ vowels ∧
      (generateMistake 1 rnd w).1.getD i ' ' ≠ w.getD i ' ' ∧
      ∀ j, j < w.length → j ≠ i →
        (generateMistake 1 rnd w).1.getD j ' ' = w.getD j ' ' := by
  obtain ⟨pos, repl, hlt, hvp, hrv, hrneq, heq⟩ :=
    generateMistake_one_spec rnd w hlen hlow halpha hvow hr1
  rw [heq]
  have hlt2 : pos < (w.set pos repl).length := by
    rw [List.length_set]
    exact hlt
  refine ⟨rfl, List.length_set w pos repl, pos, hlt, hvp, ?_, ?_, ?_⟩
  · rw [List.getD_eq_getElem _ _ hlt2, List.getElem_set_self hlt2]
    exact hrv
  · rw [List.getD_eq_getElem _ _ hlt2, List.getElem_set_self hlt2]
    exact hrneq
  · intro j hj hne
    have hj2 : j < (w.set pos repl).length := by
      rw [List.length_set]
      exact hj
    rw [List.getD_eq_getElem _ _ hj2, List.getElem_set_ne (Ne.symm hne) hj2,
      List.getD_eq_getElem _ _ hj]

section ConcreteWitnesses

attribute [local semireducible] Rat.mul Rat.add Rat.inv Rat.sub

/-- Witness for C5 at the eligible word cat with a concrete oracle. -/
theorem C5_freq_one_single_vowel_swap_witness :
    (generateMistake 1 ⟨0, 0, 0⟩ ['c', 'a', 't']).2 = true ∧
    (generateMistake 1 ⟨0, 0, 0⟩ ['c', 'a', 't']).1.length =
      (['c', 'a', 't'] : List Char).length ∧
    ∃ i, i < (['c', 'a', 't'] : List Char).length ∧
      (['c', 'a', 't'] : List Char).getD i ' ' ∈ vowels ∧
      (generateMistake 1 ⟨0, 0, 0⟩ ['c', 'a', 't']).1.getD i ' ' ∈ vowels ∧
      (generateMistake 1 ⟨0, 0, 0⟩ ['c', 'a', 't']).1.getD i ' ' ≠
        (['c', 'a', 't'] : List Char).getD i ' ' ∧
      ∀ j, j < (['c', 'a', 't'] : List Char).length → j ≠ i →
        (generateMistake 1 ⟨0, 0, 0⟩ ['c', 'a', 't']).1.getD j ' ' =
          (['c', 'a', 't'] : List Char).getD j ' ' :=
  C5_freq_one_single_vowel_swap ⟨0, 0, 0⟩ ['c', 'a', 't'] (by decide)
    (by decide) (by decide) ⟨'a', by decide, by decide⟩ (by norm_num)

/-- Witness for C7: a concrete path of the layout of A at font size 12 has
at least two points. -/
theorem C7_all_paths_at_least_two_points_witness :
    2 ≤ ([⟨60, 87⟩, ⟨80, 87⟩] : PlotPath).length :=
  C7_all_paths_at_least_two_points ['A'] 12 0 rngZero
    [⟨60, 87⟩, ⟨80, 87⟩] (by decide)

end ConcreteWitnesses

end PostcardPlotter
